import Mathlib

/-!
Shallow embedding of the session/streaming state-management core of a
browser chat client (App.tsx, types.ts, services/geminiService.ts).

The React state of the `App` component is modelled as an explicit record
`AppState`; each event handler becomes a pure state transformer.  The
streamed response of the inference API is modelled as the finite list of
text fragments it delivers, together with an outcome tag saying whether
the stream was submitted and consumed without error.
-/

/-- Message role, from types.ts: the role field is the literal union
of the strings user and model. -/
inductive Role where
  | user
  | model
deriving DecidableEq, Repr

/-- Message, from types.ts. -/
structure Message where
  id : String
  role : Role
  content : String
  timestamp : Nat
deriving DecidableEq, Repr

/-- ChatSession, from types.ts. -/
structure ChatSession where
  id : String
  title : String
  messages : List Message
  createdAt : Nat
  lastUpdated : Nat
deriving DecidableEq, Repr

/-- AppSettings, from types.ts. -/
structure AppSettings where
  systemInstruction : String
  model : String
deriving DecidableEq, Repr

/-- The Model Session Handle (the SDK Chat object held in
chatInstanceRef).  The embedding records the configuration the handle
was created from, which is all the state-management core depends on. -/
structure ChatHandle where
  systemInstruction : String
  model : String
deriving DecidableEq, Repr

/-- createChatSession from services/geminiService.ts: builds a chat
handle from the given system instruction and model identifier. -/
def createChatSession (systemInstruction : String) (model : String) : ChatHandle :=
  { systemInstruction := systemInstruction, model := model }

/-- The React state of the App component relevant to the
state-management core: sessions, currentSessionId, input, isGenerating,
settings, and the chatInstanceRef ref. -/
structure AppState where
  sessions : List ChatSession
  currentSessionId : Option String
  input : String
  isGenerating : Bool
  settings : AppSettings
  chatInstance : Option ChatHandle
deriving DecidableEq, Repr

/-- The setSessions pattern `prev.map(s => s.id === sessionId ? f(s) : s)`
used by every per-session mutation in App.tsx. -/
def updateSession (sessions : List ChatSession) (sid : String)
    (f : ChatSession → ChatSession) : List ChatSession :=
  sessions.map fun s => if s.id = sid then f s else s

/-- The `sessions.find(s => s.id === sessionId)` lookup. -/
def findSession (sessions : List ChatSession) (sid : String) : Option ChatSession :=
  sessions.find? fun s => s.id == sid

/-- handleNewChat from App.tsx: prepend a fresh session titled New Chat,
make it active, and reset the chat instance. -/
def handleNewChat (st : AppState) (newId : String) (now : Nat) : AppState :=
  let newSession : ChatSession :=
    { id := newId, title := "New Chat", messages := [], createdAt := now, lastUpdated := now }
  { st with
    sessions := newSession :: st.sessions
    currentSessionId := some newId
    chatInstance := none }

/-- handleDeleteSession from App.tsx: filter the session out; if it was
the active one, clear the pointer and reset the chat instance. -/
def handleDeleteSession (st : AppState) (id : String) : AppState :=
  let sessions := st.sessions.filter fun s => s.id ≠ id
  if st.currentSessionId = some id then
    { st with sessions := sessions, currentSessionId := none, chatInstance := none }
  else
    { st with sessions := sessions }

/-- The onSelectSession callback from App.tsx: point at the chosen
session and reset the chat instance. -/
def onSelectSession (st : AppState) (id : String) : AppState :=
  { st with currentSessionId := some id, chatInstance := none }

/-- Saving settings: the settings useEffect in App.tsx persists them and
sets chatInstanceRef.current to null. -/
def setSettings (st : AppState) (s : AppSettings) : AppState :=
  { st with settings := s, chatInstance := none }

/-- getChatInstance from App.tsx: create the handle from current
settings only when the ref is null, otherwise reuse it unchanged. -/
def getChatInstanceState (st : AppState) : AppState :=
  match st.chatInstance with
  | some _ => st
  | none =>
    { st with
      chatInstance := some (createChatSession st.settings.systemInstruction st.settings.model) }

/-- The fixed apology text appended by the catch block of
handleSendMessage. -/
def fallbackErrorText : String :=
  "Sorry, something went wrong. Please check your API key or connection."

/-- The fresh identifiers and Date.now readings consumed by one run of
handleSendMessage, in the order the code draws them. -/
structure SendEnv where
  newSessionId : String
  tNewSession : Nat
  userMsgId : String
  tUserMsg : Nat
  tUserUpdate : Nat
  botMsgId : String
  tBotMsg : Nat
  errMsgId : String
  tErrMsg : Nat
deriving DecidableEq, Repr

/-- Outcome of the streamed request: clean submission failure,
failure after consuming some fragments, or normal exhaustion. -/
inductive StreamOutcome where
  | submitError
  | streamError (chunks : List String)
  | ok (chunks : List String)
deriving DecidableEq, Repr

/-- Result of a send: the final state, plus whether the fire-and-forget
generateChatTitle call was started. -/
structure SendResult where
  state : AppState
  titleRequested : Bool
deriving DecidableEq, Repr

/-- The new session built inside handleSendMessage when no session is
active. -/
def mkNewSession (env : SendEnv) : ChatSession :=
  { id := env.newSessionId, title := "New Chat", messages := []
    createdAt := env.tNewSession, lastUpdated := env.tNewSession }

/-- The session-creation step of handleSendMessage: if no session is
active, prepend a fresh one, make it active and reset the chat
instance.  Returns the updated state, the target session id, and the
local sessionList snapshot the code keeps for the title decision. -/
def sendEnsureSession (st : AppState) (env : SendEnv) :
    AppState × String × List ChatSession :=
  match st.currentSessionId with
  | some sid => (st, sid, st.sessions)
  | none =>
    let sessionList := mkNewSession env :: st.sessions
    ({ st with
        sessions := sessionList
        currentSessionId := some env.newSessionId
        chatInstance := none },
      env.newSessionId, sessionList)

/-- The user message built by handleSendMessage: content is the trimmed
input. -/
def mkUserMessage (env : SendEnv) (input : String) : Message :=
  { id := env.userMsgId, role := Role.user, content := input.trim, timestamp := env.tUserMsg }

/-- State after the optimistic user-message append: the target session
gets the user message and a refreshed lastUpdated, the input is
cleared and isGenerating is set. -/
def sendAfterUser (st : AppState) (env : SendEnv) :
    AppState × String × List ChatSession :=
  let (st1, sid, snapshot) := sendEnsureSession st env
  let userMessage := mkUserMessage env st.input
  ({ st1 with
      sessions := updateSession st1.sessions sid fun s =>
        { s with messages := s.messages ++ [userMessage], lastUpdated := env.tUserUpdate }
      input := ""
      isGenerating := true },
    sid, snapshot)

/-- The empty model-role placeholder message. -/
def initialBotMessage (env : SendEnv) : Message :=
  { id := env.botMsgId, role := Role.model, content := "", timestamp := env.tBotMsg }

/-- State after the chat instance is obtained, the stream submitted,
and the placeholder appended — the point in handleSendMessage just
before the for-await loop starts consuming fragments. -/
def sendAfterPlaceholder (st : AppState) (env : SendEnv) :
    AppState × String × List ChatSession :=
  let (st2, sid, snapshot) := sendAfterUser st env
  let st3 := getChatInstanceState st2
  ({ st3 with
      sessions := updateSession st3.sessions sid fun s =>
        { s with messages := s.messages ++ [initialBotMessage env] } },
    sid, snapshot)

/-- Overwrite the content of the first message with the given id,
mirroring findIndex followed by index assignment in the streaming
update (a no-op when the id is absent). -/
def setFirstById (ms : List Message) (botId : String) (full : String) : List Message :=
  match ms with
  | [] => []
  | m :: rest =>
    if m.id = botId then { m with content := full } :: rest
    else m :: setFirstById rest botId full

/-- The for-await loop of handleSendMessage: skip falsy (empty)
fragments, otherwise extend fullResponseText and overwrite the
placeholder content with the accumulated text. -/
def consumeChunks (sessions : List ChatSession) (sid botId : String)
    (acc : String) : List String → List ChatSession
  | [] => sessions
  | c :: rest =>
    if c = "" then consumeChunks sessions sid botId acc rest
    else
      let acc' := acc ++ c
      consumeChunks
        (updateSession sessions sid fun s =>
          { s with messages := setFirstById s.messages botId acc' })
        sid botId acc' rest

/-- The error message appended by the catch block. -/
def errorMessage (env : SendEnv) : Message :=
  { id := env.errMsgId, role := Role.model, content := fallbackErrorText
    timestamp := env.tErrMsg }

/-- The catch block append: the error message is pushed onto the target
session without touching lastUpdated. -/
def appendError (st : AppState) (sid : String) (env : SendEnv) : AppState :=
  { st with
    sessions := updateSession st.sessions sid fun s =>
      { s with messages := s.messages ++ [errorMessage env] } }

/-- The title decision after stream exhaustion: the code looks the
target session up in the pre-send sessionList snapshot and fires
generateChatTitle when that snapshot had zero messages. -/
def titleDecision (snapshot : List ChatSession) (sid : String) : Bool :=
  match findSession snapshot sid with
  | some s => s.messages.isEmpty
  | none => false

/-- handleSendMessage from App.tsx as a pure transformer: guard, ensure
a session, append the user message, then follow the success or error
path dictated by the stream outcome; finally clear isGenerating. -/
def handleSendMessage (st : AppState) (env : SendEnv) (outcome : StreamOutcome) :
    SendResult :=
  if st.input.trim = "" ∨ st.isGenerating = true then
    { state := st, titleRequested := false }
  else
    match outcome with
    | StreamOutcome.submitError =>
      let (st2, sid, _) := sendAfterUser st env
      let st3 := getChatInstanceState st2
      { state := { appendError st3 sid env with isGenerating := false }
        titleRequested := false }
    | StreamOutcome.streamError chunks =>
      let (st4, sid, _) := sendAfterPlaceholder st env
      let st5 := { st4 with sessions := consumeChunks st4.sessions sid env.botMsgId "" chunks }
      { state := { appendError st5 sid env with isGenerating := false }
        titleRequested := false }
    | StreamOutcome.ok chunks =>
      let (st4, sid, snapshot) := sendAfterPlaceholder st env
      let st5 := { st4 with sessions := consumeChunks st4.sessions sid env.botMsgId "" chunks }
      { state := { st5 with isGenerating := false }
        titleRequested := titleDecision snapshot sid }

/-- The rename applied when the fire-and-forget generateChatTitle
promise resolves: a map-by-id title overwrite. -/
def applyRename (sessions : List ChatSession) (sid : String) (title : String) :
    List ChatSession :=
  sessions.map fun s => if s.id = sid then { s with title := title } else s

/-- Concatenation of a fragment list, the reference value for
fullResponseText. -/
def concatStrs : List String → String
  | [] => ""
  | c :: rest => c ++ concatStrs rest

/-! ### Helper lemmas about the mutation combinators -/

theorem updateSession_nil (sid : String) (f : ChatSession → ChatSession) :
    updateSession [] sid f = [] := rfl

theorem updateSession_cons (s : ChatSession) (L : List ChatSession) (sid : String)
    (f : ChatSession → ChatSession) :
    updateSession (s :: L) sid f =
      (if s.id = sid then f s else s) :: updateSession L sid f := rfl

theorem updateSession_congr (L : List ChatSession) (sid : String)
    (f g : ChatSession → ChatSession) (h : ∀ s, f s = g s) :
    updateSession L sid f = updateSession L sid g := by
  induction L with
  | nil => rfl
  | cons a L ih =>
    simp only [updateSession_cons, ih, h a]

theorem updateSession_fresh (L : List ChatSession) (sid : String)
    (f : ChatSession → ChatSession) (h : ∀ s ∈ L, s.id ≠ sid) :
    updateSession L sid f = L := by
  induction L with
  | nil => rfl
  | cons a L ih =>
    have ha : a.id ≠ sid := h a (List.mem_cons_self a L)
    simp only [updateSession_cons, if_neg ha]
    rw [ih fun s hs => h s (List.mem_cons_of_mem a hs)]

theorem updateSession_updateSession (L : List ChatSession) (sid : String)
    (f g : ChatSession → ChatSession) (hf : ∀ s, (f s).id = s.id) :
    updateSession (updateSession L sid f) sid g =
      updateSession L sid fun s => g (f s) := by
  induction L with
  | nil => rfl
  | cons a L ih =>
    simp only [updateSession_cons]
    by_cases ha : a.id = sid
    · rw [if_pos ha, if_pos ((hf a).trans ha), if_pos ha, ih]
    · rw [if_neg ha, if_neg ha, if_neg ha, ih]

theorem mem_updateSession (L : List ChatSession) (sid : String)
    (f : ChatSession → ChatSession) (s' : ChatSession) :
    s' ∈ updateSession L sid f ↔
      ∃ s ∈ L, s' = if s.id = sid then f s else s := by
  simp only [updateSession, List.mem_map]
  constructor
  · rintro ⟨s, hs, rfl⟩; exact ⟨s, hs, rfl⟩
  · rintro ⟨s, hs, rfl⟩; exact ⟨s, hs, rfl⟩

theorem setFirstById_id_map (ms : List Message) (b full : String) :
    (setFirstById ms b full).map Message.id = ms.map Message.id := by
  induction ms with
  | nil => rfl
  | cons m rest ih =>
    by_cases hm : m.id = b
    · simp [setFirstById, if_pos hm]
    · simp [setFirstById, if_neg hm, ih]

theorem setFirstById_setFirstById (ms : List Message) (b x y : String) :
    setFirstById (setFirstById ms b x) b y = setFirstById ms b y := by
  induction ms with
  | nil => rfl
  | cons m rest ih =>
    by_cases hm : m.id = b
    · simp [setFirstById, if_pos hm]
    · simp [setFirstById, if_neg hm, ih]

theorem setFirstById_append_fresh (base : List Message) (pm : Message) (b full : String)
    (hfresh : ∀ m ∈ base, m.id ≠ b) (hpm : pm.id = b) :
    setFirstById (base ++ [pm]) b full = base ++ [{ pm with content := full }] := by
  induction base with
  | nil => simp [setFirstById, hpm]
  | cons m rest ih =>
    have hm : m.id ≠ b := hfresh m (List.mem_cons_self m rest)
    simp only [List.cons_append, setFirstById, if_neg hm, List.append_eq]
    rw [ih fun x hx => hfresh x (List.mem_cons_of_mem m hx)]

theorem concatStrs_all_empty (chunks : List String)
    (h : chunks.all (fun c => c == "") = true) : concatStrs chunks = "" := by
  induction chunks with
  | nil => rfl
  | cons c rest ih =>
    simp only [List.all_cons, Bool.and_eq_true, beq_iff_eq] at h
    simp [concatStrs, h.1, ih h.2]

theorem concatStrs_filter_ne (chunks : List String) :
    concatStrs (chunks.filter fun c => c != "") = concatStrs chunks := by
  induction chunks with
  | nil => rfl
  | cons c rest ih =>
    by_cases hc : c = ""
    · subst hc
      rw [List.filter_cons_of_neg (by simp), ih]
      simp [concatStrs]
    · rw [List.filter_cons_of_pos (by simp [hc])]
      simp [concatStrs, ih]

theorem consumeChunks_collapse (L : List ChatSession) (sid botId : String)
    (acc : String) (chunks : List String) :
    consumeChunks L sid botId acc chunks =
      if chunks.all (fun c => c == "") then L
      else updateSession L sid fun s =>
        { s with messages := setFirstById s.messages botId (acc ++ concatStrs chunks) } := by
  induction chunks generalizing L acc with
  | nil => simp [consumeChunks]
  | cons c rest ih =>
    by_cases hc : c = ""
    · subst hc
      rw [show consumeChunks L sid botId acc ("" :: rest) =
            consumeChunks L sid botId acc rest by simp [consumeChunks]]
      rw [ih]
      have h1 : (("" :: rest).all fun c => c == "") = (rest.all fun c => c == "") := by
        simp
      have h2 : concatStrs ("" :: rest) = concatStrs rest := by
        simp [concatStrs]
      rw [h1, h2]
    · rw [show consumeChunks L sid botId acc (c :: rest) =
            consumeChunks
              (updateSession L sid fun s =>
                { s with messages := setFirstById s.messages botId (acc ++ c) })
              sid botId (acc ++ c) rest by simp [consumeChunks, hc]]
      rw [ih]
      have hcons : ¬(((c :: rest).all fun x => x == "") = true) := by
        simp [List.all_cons, hc]
      rw [if_neg hcons]
      by_cases hall : (rest.all fun x => x == "") = true
      · rw [if_pos hall]
        have hrest : concatStrs rest = "" := concatStrs_all_empty rest hall
        apply updateSession_congr
        intro s
        have hcat : acc ++ c = acc ++ concatStrs (c :: rest) := by
          simp [concatStrs, hrest]
        rw [hcat]
      · rw [if_neg hall]
        rw [updateSession_updateSession L sid
          (fun s => { s with messages := setFirstById s.messages botId (acc ++ c) })
          (fun s => { s with
            messages := setFirstById s.messages botId (acc ++ c ++ concatStrs rest) })
          (fun s => rfl)]
        apply updateSession_congr
        intro s
        cases s with
        | mk i t ms ca lu =>
          simp only [setFirstById_setFirstById]
          have hcat : acc ++ c ++ concatStrs rest = acc ++ concatStrs (c :: rest) := by
            rw [show concatStrs (c :: rest) = c ++ concatStrs rest from rfl,
              String.append_assoc]
          rw [hcat]

/-! ### Structural characterization of the send phases -/

theorem updateSession_congr_mem (L : List ChatSession) (sid : String)
    (f g : ChatSession → ChatSession)
    (h : ∀ s ∈ L, s.id = sid → f s = g s) :
    updateSession L sid f = updateSession L sid g := by
  induction L with
  | nil => rfl
  | cons a L ih =>
    simp only [updateSession_cons]
    by_cases ha : a.id = sid
    · rw [if_pos ha, if_pos ha, h a (List.mem_cons_self a L) ha,
        ih fun s hs => h s (List.mem_cons_of_mem a hs)]
    · rw [if_neg ha, if_neg ha, ih fun s hs => h s (List.mem_cons_of_mem a hs)]

/-- The chat instance held after getChatInstance runs. -/
def nextChatInstance (st : AppState) : Option ChatHandle :=
  match st.chatInstance with
  | some h => some h
  | none => some (createChatSession st.settings.systemInstruction st.settings.model)

theorem getChatInstanceState_eq (st : AppState) :
    getChatInstanceState st = { st with chatInstance := nextChatInstance st } := by
  cases st with
  | mk sessions cur inp gen stg ci => cases ci <;> rfl

/-- The per-session effect of the user-message append. -/
def userAppendFn (env : SendEnv) (input : String) : ChatSession → ChatSession :=
  fun s => { s with
    messages := s.messages ++ [mkUserMessage env input]
    lastUpdated := env.tUserUpdate }

/-- The per-session effect of user-message append followed by the
placeholder append. -/
def userBotFn (env : SendEnv) (input : String) : ChatSession → ChatSession :=
  fun s => { s with
    messages := (s.messages ++ [mkUserMessage env input]) ++ [initialBotMessage env]
    lastUpdated := env.tUserUpdate }


/-- The per-session effect of the catch-block error append. -/
def errAppendFn (env : SendEnv) : ChatSession → ChatSession :=
  fun s => { s with messages := s.messages ++ [errorMessage env] }

/-- The per-session effect of the placeholder append alone. -/
def botAppendFn (env : SendEnv) : ChatSession → ChatSession :=
  fun s => { s with messages := s.messages ++ [initialBotMessage env] }

theorem handleSendMessage_ok_active (sessions : List ChatSession) (sid inp : String)
    (stg : AppSettings) (ci : Option ChatHandle) (env : SendEnv) (chunks : List String)
    (h1 : ¬ inp.trim = "") :
    handleSendMessage ⟨sessions, some sid, inp, false, stg, ci⟩ env (StreamOutcome.ok chunks) =
      { state :=
          { sessions := consumeChunks
              (updateSession
                (updateSession sessions sid (userAppendFn env inp)) sid (botAppendFn env))
              sid env.botMsgId "" chunks
            currentSessionId := some sid
            input := ""
            isGenerating := false
            settings := stg
            chatInstance := nextChatInstance ⟨sessions, some sid, inp, false, stg, ci⟩ }
        titleRequested := titleDecision sessions sid } := by
  have hg : ¬(inp.trim = "" ∨ (false : Bool) = true) := by simp [h1]
  unfold handleSendMessage
  dsimp only
  rw [if_neg hg]
  cases ci <;> rfl

theorem handleSendMessage_submitError_active (sessions : List ChatSession)
    (sid inp : String) (stg : AppSettings) (ci : Option ChatHandle) (env : SendEnv)
    (h1 : ¬ inp.trim = "") :
    handleSendMessage ⟨sessions, some sid, inp, false, stg, ci⟩ env
        StreamOutcome.submitError =
      { state :=
          { sessions := updateSession
              (updateSession sessions sid (userAppendFn env inp)) sid (errAppendFn env)
            currentSessionId := some sid
            input := ""
            isGenerating := false
            settings := stg
            chatInstance := nextChatInstance ⟨sessions, some sid, inp, false, stg, ci⟩ }
        titleRequested := false } := by
  have hg : ¬(inp.trim = "" ∨ (false : Bool) = true) := by simp [h1]
  unfold handleSendMessage
  dsimp only
  rw [if_neg hg]
  cases ci <;> rfl

theorem handleSendMessage_streamError_active (sessions : List ChatSession)
    (sid inp : String) (stg : AppSettings) (ci : Option ChatHandle) (env : SendEnv)
    (chunks : List String) (h1 : ¬ inp.trim = "") :
    handleSendMessage ⟨sessions, some sid, inp, false, stg, ci⟩ env
        (StreamOutcome.streamError chunks) =
      { state :=
          { sessions := updateSession
              (consumeChunks
                (updateSession
                  (updateSession sessions sid (userAppendFn env inp)) sid (botAppendFn env))
                sid env.botMsgId "" chunks)
              sid (errAppendFn env)
            currentSessionId := some sid
            input := ""
            isGenerating := false
            settings := stg
            chatInstance := nextChatInstance ⟨sessions, some sid, inp, false, stg, ci⟩ }
        titleRequested := false } := by
  have hg : ¬(inp.trim = "" ∨ (false : Bool) = true) := by simp [h1]
  unfold handleSendMessage
  dsimp only
  rw [if_neg hg]
  cases ci <;> rfl

theorem handleSendMessage_ok_none (sessions : List ChatSession) (inp : String)
    (stg : AppSettings) (ci : Option ChatHandle) (env : SendEnv) (chunks : List String)
    (h1 : ¬ inp.trim = "") :
    handleSendMessage ⟨sessions, none, inp, false, stg, ci⟩ env (StreamOutcome.ok chunks) =
      { state :=
          { sessions := consumeChunks
              (updateSession
                (updateSession (mkNewSession env :: sessions) env.newSessionId
                  (userAppendFn env inp))
                env.newSessionId (botAppendFn env))
              env.newSessionId env.botMsgId "" chunks
            currentSessionId := some env.newSessionId
            input := ""
            isGenerating := false
            settings := stg
            chatInstance :=
              some (createChatSession stg.systemInstruction stg.model) }
        titleRequested := titleDecision (mkNewSession env :: sessions) env.newSessionId } := by
  have hg : ¬(inp.trim = "" ∨ (false : Bool) = true) := by simp [h1]
  unfold handleSendMessage
  dsimp only
  rw [if_neg hg]
  rfl

theorem handleSendMessage_submitError_none (sessions : List ChatSession) (inp : String)
    (stg : AppSettings) (ci : Option ChatHandle) (env : SendEnv)
    (h1 : ¬ inp.trim = "") :
    handleSendMessage ⟨sessions, none, inp, false, stg, ci⟩ env
        StreamOutcome.submitError =
      { state :=
          { sessions := updateSession
              (updateSession (mkNewSession env :: sessions) env.newSessionId
                (userAppendFn env inp))
              env.newSessionId (errAppendFn env)
            currentSessionId := some env.newSessionId
            input := ""
            isGenerating := false
            settings := stg
            chatInstance :=
              some (createChatSession stg.systemInstruction stg.model) }
        titleRequested := false } := by
  have hg : ¬(inp.trim = "" ∨ (false : Bool) = true) := by simp [h1]
  unfold handleSendMessage
  dsimp only
  rw [if_neg hg]
  rfl

theorem handleSendMessage_streamError_none (sessions : List ChatSession) (inp : String)
    (stg : AppSettings) (ci : Option ChatHandle) (env : SendEnv) (chunks : List String)
    (h1 : ¬ inp.trim = "") :
    handleSendMessage ⟨sessions, none, inp, false, stg, ci⟩ env
        (StreamOutcome.streamError chunks) =
      { state :=
          { sessions := updateSession
              (consumeChunks
                (updateSession
                  (updateSession (mkNewSession env :: sessions) env.newSessionId
                    (userAppendFn env inp))
                  env.newSessionId (botAppendFn env))
                env.newSessionId env.botMsgId "" chunks)
              env.newSessionId (errAppendFn env)
            currentSessionId := some env.newSessionId
            input := ""
            isGenerating := false
            settings := stg
            chatInstance :=
              some (createChatSession stg.systemInstruction stg.model) }
        titleRequested := false } := by
  have hg : ¬(inp.trim = "" ∨ (false : Bool) = true) := by simp [h1]
  unfold handleSendMessage
  dsimp only
  rw [if_neg hg]
  rfl

theorem userBot_compose (L : List ChatSession) (sid : String) (env : SendEnv)
    (inp : String) :
    updateSession (updateSession L sid (userAppendFn env inp)) sid (botAppendFn env) =
      updateSession L sid (userBotFn env inp) := by
  rw [updateSession_updateSession L sid (userAppendFn env inp) (botAppendFn env)
    (fun s => rfl)]
  rfl

/-! ### Claim C1 -/

/-- C1: for every fragment sequence consumed without error during send,
the final content of the model-role placeholder message equals the
concatenation of all non-empty fragment texts in the order received;
the placeholder stays the last message of the target session. -/
theorem c1_stream_concat (st : AppState) (env : SendEnv) (chunks : List String)
    (sid : String)
    (h1 : st.input.trim ≠ "")
    (h2 : st.isGenerating = false)
    (h3 : st.currentSessionId = some sid)
    (hfresh : ∀ s ∈ st.sessions, s.id = sid → ∀ m ∈ s.messages, m.id ≠ env.botMsgId)
    (hneq : env.userMsgId ≠ env.botMsgId) :
    ∀ s' ∈ (handleSendMessage st env (StreamOutcome.ok chunks)).state.sessions,
      s'.id = sid →
        s'.messages.getLast? =
          some { id := env.botMsgId, role := Role.model
                 content := concatStrs (chunks.filter fun c => c != "")
                 timestamp := env.tBotMsg } := by
  obtain ⟨sessions, cur, inp, gen, stg, ci⟩ := st
  dsimp only at h1 h2 h3 hfresh
  subst h2; subst h3
  rw [handleSendMessage_ok_active sessions sid inp stg ci env chunks h1]
  dsimp only
  rw [userBot_compose, consumeChunks_collapse]
  by_cases hall : (chunks.all fun c => c == "") = true
  · rw [if_pos hall]
    have hC : concatStrs (chunks.filter fun c => c != "") = "" := by
      rw [concatStrs_filter_ne]; exact concatStrs_all_empty chunks hall
    intro s' hs' hid
    rw [mem_updateSession] at hs'
    obtain ⟨s, hs, heq⟩ := hs'
    by_cases hsid : s.id = sid
    · rw [if_pos hsid] at heq
      subst heq
      show (((s.messages ++ [mkUserMessage env inp]) ++ [initialBotMessage env]).getLast?) = _
      rw [List.getLast?_concat, hC]
      rfl
    · rw [if_neg hsid] at heq
      subst heq
      exact absurd hid hsid
  · rw [if_neg hall]
    rw [updateSession_updateSession sessions sid (userBotFn env inp)
      (fun s => { s with
        messages := setFirstById s.messages env.botMsgId ("" ++ concatStrs chunks) })
      (fun s => rfl)]
    have hC : ("" ++ concatStrs chunks : String) =
        concatStrs (chunks.filter fun c => c != "") := by
      rw [concatStrs_filter_ne]
      simp
    intro s' hs' hid
    rw [mem_updateSession] at hs'
    obtain ⟨s, hs, heq⟩ := hs'
    by_cases hsid : s.id = sid
    · rw [if_pos hsid] at heq
      subst heq
      show (setFirstById ((s.messages ++ [mkUserMessage env inp]) ++ [initialBotMessage env])
        env.botMsgId ("" ++ concatStrs chunks)).getLast? = _
      rw [setFirstById_append_fresh (s.messages ++ [mkUserMessage env inp])
        (initialBotMessage env) env.botMsgId ("" ++ concatStrs chunks)
        (by
          intro m hm
          rcases List.mem_append.mp hm with hmem | hmem
          · exact hfresh s hs hsid m hmem
          · rw [List.mem_singleton.mp hmem]
            exact hneq)
        rfl]
      rw [List.getLast?_concat, hC]
      rfl
    · rw [if_neg hsid] at heq
      subst heq
      exact absurd hid hsid

/-- Evaluation of String.trim on the literal hi, needed because the
well-founded auxiliary recursions of trim do not reduce in the kernel. -/
theorem trim_hi : "hi".trim = "hi" := by
  have h1 : Substring.takeWhileAux "hi" ⟨2⟩ Char.isWhitespace ⟨0⟩ = ⟨0⟩ := by
    rw [Substring.takeWhileAux]; decide
  have h2 : Substring.takeRightWhileAux "hi" ⟨0⟩ Char.isWhitespace ⟨2⟩ = ⟨2⟩ := by
    rw [Substring.takeRightWhileAux]; decide
  show ("hi".toSubstring.trim).toString = "hi"
  rw [show ("hi".toSubstring) = ⟨"hi", ⟨0⟩, ⟨2⟩⟩ from rfl]
  rw [Substring.trim]
  simp only [h1, h2]
  decide

/-- Evaluation of String.trim on the empty string. -/
theorem trim_empty : "".trim = "" := by
  have h1 : Substring.takeWhileAux "" ⟨0⟩ Char.isWhitespace ⟨0⟩ = ⟨0⟩ := by
    rw [Substring.takeWhileAux]; decide
  have h2 : Substring.takeRightWhileAux "" ⟨0⟩ Char.isWhitespace ⟨0⟩ = ⟨0⟩ := by
    rw [Substring.takeRightWhileAux]; decide
  show ("".toSubstring.trim).toString = ""
  rw [show ("".toSubstring) = ⟨"", ⟨0⟩, ⟨0⟩⟩ from rfl]
  rw [Substring.trim]
  simp only [h1, h2]
  decide

/-- Sample settings used by concrete witness states. -/
def sampleSettings : AppSettings := { systemInstruction := "sys", model := "m" }

/-- Concrete state for the C1 witness: one active empty session. -/
def c1State : AppState :=
  { sessions := [{ id := "s1", title := "New Chat", messages := []
                   createdAt := 1, lastUpdated := 1 }]
    currentSessionId := some "s1", input := "hi", isGenerating := false
    settings := sampleSettings, chatInstance := none }

/-- Concrete identifier and clock environment for the C1 witness. -/
def c1Env : SendEnv :=
  { newSessionId := "n1", tNewSession := 2, userMsgId := "u1", tUserMsg := 3
    tUserUpdate := 4, botMsgId := "b1", tBotMsg := 5, errMsgId := "e1", tErrMsg := 6 }

/-- Witness for C1: on the fragment sequence Hel, lo, space-world the
placeholder message ends as exactly Hello world. -/
theorem c1_stream_concat_witness :
    (c1State.input.trim ≠ "" ∧ c1State.isGenerating = false ∧
      c1State.currentSessionId = some "s1" ∧
      (∀ s ∈ c1State.sessions, s.id = "s1" →
        ∀ m ∈ s.messages, m.id ≠ c1Env.botMsgId) ∧
      c1Env.userMsgId ≠ c1Env.botMsgId) ∧
    ∀ s' ∈ (handleSendMessage c1State c1Env
        (StreamOutcome.ok ["Hel", "lo", " world"])).state.sessions,
      s'.id = "s1" →
        s'.messages.getLast? =
          some { id := c1Env.botMsgId, role := Role.model
                 content := "Hello world", timestamp := c1Env.tBotMsg } :=
  ⟨⟨by show "hi".trim ≠ ""; rw [trim_hi]; decide,
    by decide, by decide, by decide, by decide⟩, by
    have h := c1_stream_concat c1State c1Env ["Hel", "lo", " world"] "s1"
      (by show "hi".trim ≠ ""; rw [trim_hi]; decide)
      (by decide) (by decide) (by decide) (by decide)
    have hval : concatStrs ((["Hel", "lo", " world"]).filter fun c => c != "") =
        "Hello world" := by decide
    rw [← hval]
    exact h⟩

/-! ### Concrete sample runs, shared by witnesses and counterexamples -/

/-- The single sample session used by concrete states. -/
def sampleSession : ChatSession :=
  { id := "s1", title := "New Chat", messages := [], createdAt := 1, lastUpdated := 1 }

/-- A sample state with one active empty session and pending input hi. -/
def sampleState : AppState :=
  { sessions := [sampleSession], currentSessionId := some "s1", input := "hi"
    isGenerating := false, settings := sampleSettings, chatInstance := none }

/-- The sample identifier and clock environment. -/
def sampleEnv : SendEnv :=
  { newSessionId := "n1", tNewSession := 2, userMsgId := "u1", tUserMsg := 3
    tUserUpdate := 4, botMsgId := "b1", tBotMsg := 5, errMsgId := "e1", tErrMsg := 6 }

theorem sample_trim_ne : ¬ ("hi" : String).trim = "" := by
  rw [trim_hi]; decide

theorem mkUserMessage_sample : mkUserMessage sampleEnv "hi" =
    { id := "u1", role := Role.user, content := "hi", timestamp := 3 } := by
  unfold mkUserMessage
  rw [trim_hi]
  rfl

/-- The user message a sample send appends. -/
def sampleUserMsg : Message :=
  { id := "u1", role := Role.user, content := "hi", timestamp := 3 }

/-- The model message of a sample send, with the given content. -/
def sampleBotMsg (content : String) : Message :=
  { id := "b1", role := Role.model, content := content, timestamp := 5 }

/-- The apology message of a sample send. -/
def sampleErrMsg : Message :=
  { id := "e1", role := Role.model, content := fallbackErrorText, timestamp := 6 }

/-- The sample session after a send appended the given messages. -/
def sampleSessionWith (ms : List Message) : ChatSession :=
  { id := "s1", title := "New Chat", messages := ms, createdAt := 1, lastUpdated := 4 }

/-- Full evaluation of a sample send that streams one fragment and then
fails. -/
theorem sampleSend_streamError :
    handleSendMessage sampleState sampleEnv (StreamOutcome.streamError ["Hi"]) =
      { state :=
          { sessions := [sampleSessionWith [sampleUserMsg, sampleBotMsg "Hi", sampleErrMsg]]
            currentSessionId := some "s1"
            input := ""
            isGenerating := false
            settings := sampleSettings
            chatInstance := some { systemInstruction := "sys", model := "m" } }
        titleRequested := false } := by
  rw [show sampleState =
    ⟨[sampleSession], some "s1", "hi", false, sampleSettings, none⟩ from rfl]
  rw [handleSendMessage_streamError_active [sampleSession] "s1" "hi" sampleSettings none
    sampleEnv ["Hi"] sample_trim_ne]
  unfold userAppendFn
  simp only [mkUserMessage_sample]
  decide

/-- Full evaluation of the placeholder point of a sample send: the
state just before any fragment is consumed. -/
theorem sampleSendAfterPlaceholder :
    sendAfterPlaceholder sampleState sampleEnv =
      ({ sessions := [sampleSessionWith [sampleUserMsg, sampleBotMsg ""]]
         currentSessionId := some "s1"
         input := ""
         isGenerating := true
         settings := sampleSettings
         chatInstance := some { systemInstruction := "sys", model := "m" } },
        "s1", [sampleSession]) := by
  rw [show sampleState =
    ⟨[sampleSession], some "s1", "hi", false, sampleSettings, none⟩ from rfl]
  unfold sendAfterPlaceholder sendAfterUser sendEnsureSession
  dsimp only
  simp only [mkUserMessage_sample]
  decide

/-- Full evaluation of the user-append point of a sample send: the
state just before the stream is submitted. -/
theorem sampleSendAfterUser :
    sendAfterUser sampleState sampleEnv =
      ({ sessions := [sampleSessionWith [sampleUserMsg]]
         currentSessionId := some "s1"
         input := ""
         isGenerating := true
         settings := sampleSettings
         chatInstance := none },
        "s1", [sampleSession]) := by
  rw [show sampleState =
    ⟨[sampleSession], some "s1", "hi", false, sampleSettings, none⟩ from rfl]
  unfold sendAfterUser sendEnsureSession
  dsimp only
  simp only [mkUserMessage_sample]
  decide

/-! ### Claim C10 -/

/-- C10: a send with blank trimmed input or with a generation already
in flight returns immediately and leaves the whole state — session
store, active-session pointer, input buffer, chat instance — unchanged,
requesting no title; the generating flag guarding this is one global
boolean of the application state. -/
theorem c10_send_guard (st : AppState) (env : SendEnv) (outcome : StreamOutcome)
    (h : st.input.trim = "" ∨ st.isGenerating = true) :
    handleSendMessage st env outcome = { state := st, titleRequested := false } := by
  unfold handleSendMessage
  rw [if_pos h]

/-- Witness for C10: with the generating flag set, a send leaves the
state untouched. -/
theorem c10_send_guard_witness :
    (({ sampleState with isGenerating := true } : AppState).input.trim = "" ∨
      ({ sampleState with isGenerating := true } : AppState).isGenerating = true) ∧
    handleSendMessage { sampleState with isGenerating := true } sampleEnv
        (StreamOutcome.ok ["x"]) =
      { state := { sampleState with isGenerating := true }, titleRequested := false } :=
  ⟨Or.inr rfl, c10_send_guard { sampleState with isGenerating := true } sampleEnv
    (StreamOutcome.ok ["x"]) (Or.inr rfl)⟩

/-! ### Claim C4 -/

/-- C4: settings save, session select, new chat, and delete of the
active session each leave the chat instance absent; getChatInstance on
an absent instance builds a fresh handle from the current settings, a
send started with no handle ends bound to exactly that handle, and a
bound handle is never replaced or mutated by getChatInstance. -/
theorem c4_handle_lifecycle (st : AppState) (s : AppSettings) (selId newId delId : String)
    (now : Nat) (st2 st3 : AppState) (hdl : ChatHandle) (env : SendEnv)
    (chunks : List String)
    (hdel : st.currentSessionId = some delId)
    (h2 : st2.chatInstance = none)
    (h2a : ¬ st2.input.trim = "")
    (h2b : st2.isGenerating = false)
    (h3 : st3.chatInstance = some hdl) :
    (setSettings st s).chatInstance = none ∧
    (onSelectSession st selId).chatInstance = none ∧
    (handleNewChat st newId now).chatInstance = none ∧
    (handleDeleteSession st delId).chatInstance = none ∧
    (getChatInstanceState st2).chatInstance =
      some (createChatSession st2.settings.systemInstruction st2.settings.model) ∧
    (handleSendMessage st2 env (StreamOutcome.ok chunks)).state.chatInstance =
      some (createChatSession st2.settings.systemInstruction st2.settings.model) ∧
    getChatInstanceState st3 = st3 := by
  refine ⟨rfl, rfl, rfl, ?_, ?_, ?_, ?_⟩
  · unfold handleDeleteSession
    rw [if_pos hdel]
  · unfold getChatInstanceState
    rw [h2]
  · obtain ⟨sessions, cur, inp, gen, stg, ci⟩ := st2
    dsimp only at h2 h2a h2b ⊢
    subst h2; subst h2b
    cases cur with
    | none =>
      rw [handleSendMessage_ok_none sessions inp stg none env chunks h2a]
    | some sid =>
      rw [handleSendMessage_ok_active sessions sid inp stg none env chunks h2a]
      rfl
  · unfold getChatInstanceState
    rw [h3]

/-- Witness for C4 at concrete states: the sample state for the absent
cases and a bound variant for the preservation case. -/
theorem c4_handle_lifecycle_witness :
    (sampleState.currentSessionId = some "s1" ∧
      sampleState.chatInstance = none ∧
      ¬ sampleState.input.trim = "" ∧
      sampleState.isGenerating = false ∧
      ({ sampleState with chatInstance := some { systemInstruction := "sys", model := "m" } }
        : AppState).chatInstance = some { systemInstruction := "sys", model := "m" }) ∧
    ((setSettings sampleState { systemInstruction := "a", model := "b" }).chatInstance = none ∧
    (onSelectSession sampleState "s1").chatInstance = none ∧
    (handleNewChat sampleState "n2" 7).chatInstance = none ∧
    (handleDeleteSession sampleState "s1").chatInstance = none ∧
    (getChatInstanceState sampleState).chatInstance =
      some (createChatSession sampleState.settings.systemInstruction
        sampleState.settings.model) ∧
    (handleSendMessage sampleState sampleEnv (StreamOutcome.ok ["x"])).state.chatInstance =
      some (createChatSession sampleState.settings.systemInstruction
        sampleState.settings.model) ∧
    getChatInstanceState
        { sampleState with chatInstance := some { systemInstruction := "sys", model := "m" } } =
      { sampleState with chatInstance := some { systemInstruction := "sys", model := "m" } }) :=
  ⟨⟨by decide, by decide, sample_trim_ne, by decide, by decide⟩,
    c4_handle_lifecycle sampleState { systemInstruction := "a", model := "b" } "s1" "n2" "s1"
      7 sampleState
      { sampleState with chatInstance := some { systemInstruction := "sys", model := "m" } }
      { systemInstruction := "sys", model := "m" } sampleEnv ["x"]
      (by decide) (by decide) sample_trim_ne (by decide) (by decide)⟩

/-! ### Claim C8 -/

/-- C8: delete removes exactly the sessions carrying the given
identifier, preserving the order and content of every other session;
when the deleted id is the active one the pointer is cleared and the
chat instance invalidated, otherwise both are untouched; settings,
input and the generating flag are never touched. -/
theorem c8_delete_frame (st : AppState) (delId : String) :
    (handleDeleteSession st delId).sessions =
      st.sessions.filter (fun s => s.id ≠ delId) ∧
    (∀ s' : ChatSession, s' ∈ (handleDeleteSession st delId).sessions ↔
      s' ∈ st.sessions ∧ s'.id ≠ delId) ∧
    (handleDeleteSession st delId).settings = st.settings ∧
    (handleDeleteSession st delId).input = st.input ∧
    (handleDeleteSession st delId).isGenerating = st.isGenerating ∧
    (st.currentSessionId = some delId →
      (handleDeleteSession st delId).currentSessionId = none ∧
      (handleDeleteSession st delId).chatInstance = none) ∧
    (st.currentSessionId ≠ some delId →
      (handleDeleteSession st delId).currentSessionId = st.currentSessionId ∧
      (handleDeleteSession st delId).chatInstance = st.chatInstance) := by
  unfold handleDeleteSession
  by_cases h : st.currentSessionId = some delId
  · rw [if_pos h]
    refine ⟨rfl, ?_, rfl, rfl, rfl, fun _ => ⟨rfl, rfl⟩, fun hn => absurd h hn⟩
    intro s'
    simp [List.mem_filter]
  · rw [if_neg h]
    refine ⟨rfl, ?_, rfl, rfl, rfl, fun hc => absurd hc h, fun _ => ⟨rfl, rfl⟩⟩
    intro s'
    simp [List.mem_filter]

/-- Witness for C8: deleting the active sample session empties the
store and clears the pointer. -/
theorem c8_delete_frame_witness :
    (handleDeleteSession sampleState "s1").sessions = [] ∧
    (handleDeleteSession sampleState "s1").currentSessionId = none ∧
    (handleDeleteSession sampleState "s1").chatInstance = none := by
  have h := c8_delete_frame sampleState "s1"
  refine ⟨?_, ?_, ?_⟩
  · rw [h.1]; decide
  · exact (h.2.2.2.2.2.1 (by decide)).1
  · exact (h.2.2.2.2.2.1 (by decide)).2

/-! ### Claim C6 -/

/-- C6: a send with non-blank input while no session is active creates
exactly one new session, titled New Chat with an empty message list
before the user message is appended, makes it the active session, and
leaves every pre-existing session untouched — the final store is the
new session followed by the unchanged original list. -/
theorem c6_new_session (st : AppState) (env : SendEnv) (chunks : List String)
    (h1 : st.input.trim ≠ "") (h2 : st.isGenerating = false)
    (h3 : st.currentSessionId = none)
    (hfresh : ∀ s ∈ st.sessions, s.id ≠ env.newSessionId) :
    (sendEnsureSession st env).1.sessions = mkNewSession env :: st.sessions ∧
    (sendEnsureSession st env).1.currentSessionId = some env.newSessionId ∧
    (sendEnsureSession st env).2.1 = env.newSessionId ∧
    mkNewSession env =
      { id := env.newSessionId, title := "New Chat", messages := []
        createdAt := env.tNewSession, lastUpdated := env.tNewSession } ∧
    (∃ s0 : ChatSession,
      (handleSendMessage st env (StreamOutcome.ok chunks)).state.sessions =
        s0 :: st.sessions ∧
      s0.id = env.newSessionId ∧ s0.title = "New Chat") ∧
    (handleSendMessage st env (StreamOutcome.ok chunks)).state.currentSessionId =
      some env.newSessionId := by
  obtain ⟨sessions, cur, inp, gen, stg, ci⟩ := st
  dsimp only at h1 h2 h3 hfresh ⊢
  subst h2; subst h3
  rw [handleSendMessage_ok_none sessions inp stg ci env chunks h1]
  refine ⟨rfl, rfl, rfl, rfl, ?_, rfl⟩
  dsimp only
  rw [userBot_compose]
  have hL0 : updateSession (mkNewSession env :: sessions) env.newSessionId
      (userBotFn env inp) = userBotFn env inp (mkNewSession env) :: sessions := by
    rw [updateSession_cons,
      if_pos (show (mkNewSession env).id = env.newSessionId from rfl),
      updateSession_fresh sessions env.newSessionId _ hfresh]
  rw [hL0, consumeChunks_collapse]
  by_cases hall : (chunks.all fun c => c == "") = true
  · rw [if_pos hall]
    exact ⟨userBotFn env inp (mkNewSession env), rfl, rfl, rfl⟩
  · rw [if_neg hall]
    rw [updateSession_cons,
      if_pos (show (userBotFn env inp (mkNewSession env)).id = env.newSessionId from rfl),
      updateSession_fresh sessions env.newSessionId _ hfresh]
    exact ⟨_, rfl, rfl, rfl⟩

/-- Witness for C6: sending from the sample state with no active
session creates one active session titled New Chat. -/
theorem c6_new_session_witness :
    (({ sampleState with currentSessionId := none } : AppState).input.trim ≠ "" ∧
      ({ sampleState with currentSessionId := none } : AppState).isGenerating = false ∧
      ({ sampleState with currentSessionId := none } : AppState).currentSessionId = none ∧
      (∀ s ∈ ({ sampleState with currentSessionId := none } : AppState).sessions,
        s.id ≠ sampleEnv.newSessionId)) ∧
    ((sendEnsureSession { sampleState with currentSessionId := none } sampleEnv).1.sessions =
      mkNewSession sampleEnv :: ({ sampleState with currentSessionId := none }
        : AppState).sessions ∧
    (sendEnsureSession { sampleState with currentSessionId := none }
      sampleEnv).1.currentSessionId = some sampleEnv.newSessionId ∧
    (sendEnsureSession { sampleState with currentSessionId := none } sampleEnv).2.1 =
      sampleEnv.newSessionId ∧
    mkNewSession sampleEnv =
      { id := sampleEnv.newSessionId, title := "New Chat", messages := []
        createdAt := sampleEnv.tNewSession, lastUpdated := sampleEnv.tNewSession } ∧
    (∃ s0 : ChatSession,
      (handleSendMessage { sampleState with currentSessionId := none } sampleEnv
          (StreamOutcome.ok ["x"])).state.sessions =
        s0 :: ({ sampleState with currentSessionId := none } : AppState).sessions ∧
      s0.id = sampleEnv.newSessionId ∧ s0.title = "New Chat") ∧
    (handleSendMessage { sampleState with currentSessionId := none } sampleEnv
        (StreamOutcome.ok ["x"])).state.currentSessionId =
      some sampleEnv.newSessionId) :=
  ⟨⟨sample_trim_ne, by decide, by decide, by decide⟩,
    c6_new_session { sampleState with currentSessionId := none } sampleEnv ["x"]
      sample_trim_ne (by decide) (by decide) (by decide)⟩

/-! ### Claim C7 -/

theorem applyRename_eq_updateSession (L : List ChatSession) (rid ttl : String) :
    applyRename L rid ttl = updateSession L rid fun s => { s with title := ttl } := rfl

theorem titleDecision_find (L : List ChatSession) (sid : String) (s : ChatSession)
    (h : findSession L sid = some s) : titleDecision L sid = s.messages.isEmpty := by
  unfold titleDecision
  rw [h]

theorem titleDecision_new (env : SendEnv) (L : List ChatSession) :
    titleDecision (mkNewSession env :: L) env.newSessionId = true := by
  unfold titleDecision findSession
  rw [List.find?_cons_of_pos]
  · rfl
  · show ((mkNewSession env).id == env.newSessionId) = true
    simp [mkNewSession]

/-- C7: the title generator runs on stream exhaustion exactly when the
target session had no messages before the user message of this send
was appended — so a session that already completed an exchange is never
renamed again automatically; error paths never request a title; a send
into a freshly created session always does; and applying a resolved
rename to an identifier absent from the store changes nothing. -/
theorem c7_title_once (st : AppState) (env : SendEnv) (chunks echunks : List String)
    (sid : String) (s : ChatSession) (L : List ChatSession) (rid ttl : String)
    (h1 : st.input.trim ≠ "") (h2 : st.isGenerating = false)
    (h3 : st.currentSessionId = some sid)
    (hfind : findSession st.sessions sid = some s)
    (hrid : ∀ x ∈ L, x.id ≠ rid) :
    ((handleSendMessage st env (StreamOutcome.ok chunks)).titleRequested = true ↔
      s.messages = []) ∧
    (handleSendMessage st env StreamOutcome.submitError).titleRequested = false ∧
    (handleSendMessage st env (StreamOutcome.streamError echunks)).titleRequested = false ∧
    (∀ (st2 : AppState) (env2 : SendEnv) (chunks2 : List String),
      st2.input.trim ≠ "" → st2.isGenerating = false → st2.currentSessionId = none →
      (handleSendMessage st2 env2 (StreamOutcome.ok chunks2)).titleRequested = true) ∧
    applyRename L rid ttl = L := by
  obtain ⟨sessions, cur, inp, gen, stg, ci⟩ := st
  dsimp only at h1 h2 h3 hfind
  subst h2; subst h3
  refine ⟨?_, ?_, ?_, ?_, ?_⟩
  · rw [handleSendMessage_ok_active sessions sid inp stg ci env chunks h1]
    dsimp only
    rw [titleDecision_find sessions sid s hfind]
    cases s.messages <;> simp [List.isEmpty]
  · rw [handleSendMessage_submitError_active sessions sid inp stg ci env h1]
  · rw [handleSendMessage_streamError_active sessions sid inp stg ci env echunks h1]
  · intro st2 env2 chunks2 h1' h2' h3'
    obtain ⟨sessions2, cur2, inp2, gen2, stg2, ci2⟩ := st2
    dsimp only at h1' h2' h3'
    subst h2'; subst h3'
    rw [handleSendMessage_ok_none sessions2 inp2 stg2 ci2 env2 chunks2 h1']
    exact titleDecision_new env2 sessions2
  · rw [applyRename_eq_updateSession]
    exact updateSession_fresh L rid _ hrid

/-- Witness for C7 at the sample state: the first send out of an empty
session requests a title, error sends do not, and a rename aimed at a
missing identifier is a no-op. -/
theorem c7_title_once_witness :
    (sampleState.input.trim ≠ "" ∧ sampleState.isGenerating = false ∧
      sampleState.currentSessionId = some "s1" ∧
      findSession sampleState.sessions "s1" = some sampleSession ∧
      (∀ x ∈ [sampleSession], x.id ≠ "zz")) ∧
    (((handleSendMessage sampleState sampleEnv (StreamOutcome.ok ["x"])).titleRequested =
        true ↔ sampleSession.messages = []) ∧
    (handleSendMessage sampleState sampleEnv StreamOutcome.submitError).titleRequested =
      false ∧
    (handleSendMessage sampleState sampleEnv
      (StreamOutcome.streamError ["y"])).titleRequested = false ∧
    (∀ (st2 : AppState) (env2 : SendEnv) (chunks2 : List String),
      st2.input.trim ≠ "" → st2.isGenerating = false → st2.currentSessionId = none →
      (handleSendMessage st2 env2 (StreamOutcome.ok chunks2)).titleRequested = true) ∧
    applyRename [sampleSession] "zz" "T" = [sampleSession]) :=
  ⟨⟨sample_trim_ne, by decide, by decide, by decide, by decide⟩,
    c7_title_once sampleState sampleEnv ["x"] ["y"] "s1" sampleSession [sampleSession]
      "zz" "T" sample_trim_ne (by decide) (by decide) (by decide) (by decide)⟩

/-! ### Claim C5 (corrected) -/

theorem sendAfterPlaceholder_sessions (sessions : List ChatSession) (sid inp : String)
    (gen : Bool) (stg : AppSettings) (ci : Option ChatHandle) (env : SendEnv) :
    (sendAfterPlaceholder ⟨sessions, some sid, inp, gen, stg, ci⟩ env).1.sessions =
      updateSession (updateSession sessions sid (userAppendFn env inp)) sid
        (botAppendFn env) := by
  cases ci <;> rfl

/-- C5 counterexample: in a concrete send, at the point where the
stream has been obtained but no fragment has been received, the target
session already ends with the empty model-role placeholder rather than
with the user message, so the placeholder is not created on the first
fragment. -/
theorem c5_counterexample :
    ((sendAfterPlaceholder sampleState sampleEnv).1.sessions.map fun s =>
      s.messages.map fun m => (m.id, m.role, m.content)) =
      [[("u1", Role.user, "hi"), ("b1", Role.model, "")]] ∧
    Role.model ≠ Role.user := by
  rw [sampleSendAfterPlaceholder]
  exact ⟨by decide, by decide⟩

/-- C5 amended: once the stream submission succeeds, the empty
model-role placeholder is appended before any fragment is consumed: at
that point the target session ends with the empty placeholder,
immediately preceded by the user message. -/
theorem c5_placeholder_before_fragments (st : AppState) (env : SendEnv) (sid : String)
    (h1 : st.input.trim ≠ "") (h2 : st.isGenerating = false)
    (h3 : st.currentSessionId = some sid) :
    ∀ s' ∈ (sendAfterPlaceholder st env).1.sessions, s'.id = sid →
      s'.messages.getLast? = some (initialBotMessage env) ∧
      s'.messages.dropLast.getLast? = some (mkUserMessage env st.input) := by
  obtain ⟨sessions, cur, inp, gen, stg, ci⟩ := st
  dsimp only at h3 ⊢
  subst h3
  rw [sendAfterPlaceholder_sessions, userBot_compose]
  intro s' hs' hid
  rw [mem_updateSession] at hs'
  obtain ⟨s, hs, heq⟩ := hs'
  by_cases hsid : s.id = sid
  · rw [if_pos hsid] at heq
    subst heq
    constructor
    · show (((s.messages ++ [mkUserMessage env inp]) ++
        [initialBotMessage env]).getLast?) = _
      rw [List.getLast?_concat]
    · show (((s.messages ++ [mkUserMessage env inp]) ++
        [initialBotMessage env]).dropLast.getLast?) = _
      rw [List.dropLast_concat, List.getLast?_concat]
  · rw [if_neg hsid] at heq
    subst heq
    exact absurd hid hsid

/-- Witness for the amended C5 at the sample state. -/
theorem c5_placeholder_before_fragments_witness :
    (sampleState.input.trim ≠ "" ∧ sampleState.isGenerating = false ∧
      sampleState.currentSessionId = some "s1") ∧
    ∀ s' ∈ (sendAfterPlaceholder sampleState sampleEnv).1.sessions, s'.id = "s1" →
      s'.messages.getLast? = some (initialBotMessage sampleEnv) ∧
      s'.messages.dropLast.getLast? = some (mkUserMessage sampleEnv sampleState.input) :=
  ⟨⟨sample_trim_ne, by decide, by decide⟩,
    c5_placeholder_before_fragments sampleState sampleEnv "s1" sample_trim_ne
      (by decide) (by decide)⟩

/-! ### Claim C2 (corrected) -/

/-- C2 counterexample: in a concrete send that fails after streaming
one fragment, the placeholder keeps the streamed content Hi instead of
being replaced with the apology string; the apology arrives as a newly
appended separate message. -/
theorem c2_counterexample :
    ((handleSendMessage sampleState sampleEnv
        (StreamOutcome.streamError ["Hi"])).state.sessions.map fun s =>
      s.messages.map fun m => (m.id, m.content)) =
      [[("u1", "hi"), ("b1", "Hi"), ("e1", fallbackErrorText)]] ∧
    ("Hi" : String) ≠ fallbackErrorText := by
  rw [sampleSend_streamError]
  exact ⟨by decide, by decide⟩

theorem errAppend_last (X : List ChatSession) (sid : String) (env : SendEnv) :
    ∀ s' ∈ updateSession X sid (errAppendFn env), s'.id = sid →
      s'.messages.getLast? = some (errorMessage env) := by
  intro s' hs' hid
  rw [mem_updateSession] at hs'
  obtain ⟨s, hs, heq⟩ := hs'
  by_cases hsid : s.id = sid
  · rw [if_pos hsid] at heq
    subst heq
    show (s.messages ++ [errorMessage env]).getLast? = _
    rw [List.getLast?_concat]
  · rw [if_neg hsid] at heq
    subst heq
    exact absurd hid hsid

/-- C2 amended: any error during submission or fragment consumption
appends a new model-role message whose content is the fixed apology
string, so the affected session ends with that apology message; the
placeholder, when one exists, keeps the fragments already received;
send returns a state in every case instead of propagating the error. -/
theorem c2_error_append (st : AppState) (env : SendEnv) (outcome : StreamOutcome)
    (sid : String)
    (h1 : st.input.trim ≠ "") (h2 : st.isGenerating = false)
    (h3 : st.currentSessionId = some sid)
    (herr : outcome = StreamOutcome.submitError ∨
      ∃ chunks, outcome = StreamOutcome.streamError chunks) :
    ∀ s' ∈ (handleSendMessage st env outcome).state.sessions, s'.id = sid →
      s'.messages.getLast? = some (errorMessage env) ∧
      (errorMessage env).content = fallbackErrorText := by
  obtain ⟨sessions, cur, inp, gen, stg, ci⟩ := st
  dsimp only at h1 h2 h3
  subst h2; subst h3
  rcases herr with rfl | ⟨chunks, rfl⟩
  · rw [handleSendMessage_submitError_active sessions sid inp stg ci env h1]
    intro s' hs' hid
    exact ⟨errAppend_last _ sid env s' hs' hid, rfl⟩
  · rw [handleSendMessage_streamError_active sessions sid inp stg ci env chunks h1]
    intro s' hs' hid
    exact ⟨errAppend_last _ sid env s' hs' hid, rfl⟩

/-- Witness for the amended C2: a sample send failing mid-stream ends
with the apology message. -/
theorem c2_error_append_witness :
    (sampleState.input.trim ≠ "" ∧ sampleState.isGenerating = false ∧
      sampleState.currentSessionId = some "s1" ∧
      (StreamOutcome.streamError ["Hi"] = StreamOutcome.submitError ∨
        ∃ chunks, StreamOutcome.streamError ["Hi"] = StreamOutcome.streamError chunks)) ∧
    ∀ s' ∈ (handleSendMessage sampleState sampleEnv
        (StreamOutcome.streamError ["Hi"])).state.sessions, s'.id = "s1" →
      s'.messages.getLast? = some (errorMessage sampleEnv) ∧
      (errorMessage sampleEnv).content = fallbackErrorText :=
  ⟨⟨sample_trim_ne, by decide, by decide, Or.inr ⟨["Hi"], rfl⟩⟩,
    c2_error_append sampleState sampleEnv (StreamOutcome.streamError ["Hi"]) "s1"
      sample_trim_ne (by decide) (by decide) (Or.inr ⟨["Hi"], rfl⟩)⟩

/-! ### Claim C3 (corrected) -/

/-- C3 counterexample: in a concrete send failing after one fragment,
the target session gains three messages — user append at clock 4,
placeholder append at clock 5, error append at clock 6 — yet its
lastUpdated ends at 4: the placeholder, streaming and error mutations
did not refresh it. -/
theorem c3_counterexample :
    ((handleSendMessage sampleState sampleEnv
        (StreamOutcome.streamError ["Hi"])).state.sessions.map fun s =>
      (s.lastUpdated, s.messages.length)) = [(4, 3)] ∧
    sampleEnv.tBotMsg = 5 ∧ sampleEnv.tErrMsg = 6 ∧
    (4 : Nat) ≠ 5 ∧ (4 : Nat) ≠ 6 := by
  rw [sampleSend_streamError]
  exact ⟨by decide, by decide, by decide, by decide, by decide⟩

theorem mem_updateSession2 (L : List ChatSession) (sid : String)
    (f g : ChatSession → ChatSession) (hf : ∀ x, (f x).id = x.id) (s' : ChatSession) :
    s' ∈ updateSession (updateSession L sid f) sid g ↔
      ∃ s ∈ L, s' = if s.id = sid then g (f s) else s := by
  rw [updateSession_updateSession L sid f g hf]
  exact mem_updateSession L sid _ s'

theorem mem_updateSession3 (L : List ChatSession) (sid : String)
    (f g h : ChatSession → ChatSession)
    (hf : ∀ x, (f x).id = x.id) (hg : ∀ x, (g x).id = x.id) (s' : ChatSession) :
    s' ∈ updateSession (updateSession (updateSession L sid f) sid g) sid h ↔
      ∃ s ∈ L, s' = if s.id = sid then h (g (f s)) else s := by
  rw [updateSession_updateSession L sid f g hf]
  rw [updateSession_updateSession L sid (fun s => g (f s)) h
    (fun s => (hg (f s)).trans (hf s))]
  exact mem_updateSession L sid _ s'

theorem lastUpdated_of_mem_ite (L : List ChatSession) (sid : String) (tU : Nat)
    (hclock : ∀ s ∈ L, s.lastUpdated ≤ tU) (F : ChatSession → ChatSession)
    (hFid : ∀ x, (F x).id = x.id) (hFlu : ∀ x, (F x).lastUpdated = tU)
    (s' : ChatSession) (hctx : ∃ s ∈ L, s' = if s.id = sid then F s else s) :
    (s'.id = sid → s'.lastUpdated = tU) ∧
    (s'.id ≠ sid → s' ∈ L) ∧
    (∃ s ∈ L, s'.id = s.id ∧ s.lastUpdated ≤ s'.lastUpdated) := by
  obtain ⟨s, hs, heq⟩ := hctx
  by_cases hsid : s.id = sid
  · rw [if_pos hsid] at heq
    subst heq
    refine ⟨fun _ => hFlu s, fun hne => absurd ((hFid s).trans hsid) hne, s, hs, hFid s, ?_⟩
    rw [hFlu s]
    exact hclock s hs
  · rw [if_neg hsid] at heq
    subst heq
    exact ⟨fun h => absurd h hsid, fun _ => hs, s', hs, rfl, Nat.le_refl _⟩

theorem applyRename_lastUpdated (L : List ChatSession) (rid ttl : String) :
    (applyRename L rid ttl).map (fun s => (s.id, s.lastUpdated)) =
      L.map fun s => (s.id, s.lastUpdated) := by
  induction L with
  | nil => rfl
  | cons a L ih =>
    by_cases ha : a.id = rid
    · simp only [applyRename, List.map_cons, if_pos ha] at *
      rw [ih]
    · simp only [applyRename, List.map_cons, if_neg ha] at *
      rw [ih]

/-- C3 amended: among the message-list mutations of a send, only the
optimistic user-message append refreshes lastUpdated — the target
session ends every send, successful or failed, with lastUpdated equal
to the clock of that append; sessions with other identifiers are left
untouched, lastUpdated stays monotonically non-decreasing whenever the
clock is, and rename never changes any lastUpdated. -/
theorem c3_lastUpdated_user_append_only (st : AppState) (env : SendEnv)
    (outcome : StreamOutcome) (sid : String)
    (h1 : st.input.trim ≠ "") (h2 : st.isGenerating = false)
    (h3 : st.currentSessionId = some sid)
    (hclock : ∀ s ∈ st.sessions, s.lastUpdated ≤ env.tUserUpdate) :
    (∀ s' ∈ (handleSendMessage st env outcome).state.sessions,
      (s'.id = sid → s'.lastUpdated = env.tUserUpdate) ∧
      (s'.id ≠ sid → s' ∈ st.sessions) ∧
      (∃ s ∈ st.sessions, s'.id = s.id ∧ s.lastUpdated ≤ s'.lastUpdated)) ∧
    (∀ (L : List ChatSession) (rid ttl : String),
      (applyRename L rid ttl).map (fun s => (s.id, s.lastUpdated)) =
        L.map fun s => (s.id, s.lastUpdated)) := by
  obtain ⟨sessions, cur, inp, gen, stg, ci⟩ := st
  dsimp only at h1 h2 h3 hclock ⊢
  subst h2; subst h3
  refine ⟨?_, fun L rid ttl => applyRename_lastUpdated L rid ttl⟩
  cases outcome with
  | submitError =>
    rw [handleSendMessage_submitError_active sessions sid inp stg ci env h1]
    intro s' hs'
    rw [mem_updateSession2 sessions sid (userAppendFn env inp) (errAppendFn env)
      (fun x => rfl) s'] at hs'
    exact lastUpdated_of_mem_ite sessions sid env.tUserUpdate hclock
      (fun x => errAppendFn env (userAppendFn env inp x))
      (fun x => rfl) (fun x => rfl) s' hs'
  | streamError chunks =>
    rw [handleSendMessage_streamError_active sessions sid inp stg ci env chunks h1]
    rw [userBot_compose, consumeChunks_collapse]
    by_cases hall : (chunks.all fun c => c == "") = true
    · rw [if_pos hall]
      intro s' hs'
      rw [mem_updateSession2 sessions sid (userBotFn env inp) (errAppendFn env)
        (fun x => rfl) s'] at hs'
      exact lastUpdated_of_mem_ite sessions sid env.tUserUpdate hclock
        (fun x => errAppendFn env (userBotFn env inp x))
        (fun x => rfl) (fun x => rfl) s' hs'
    · rw [if_neg hall]
      intro s' hs'
      rw [mem_updateSession3 sessions sid (userBotFn env inp)
        (fun s => { s with
          messages := setFirstById s.messages env.botMsgId ("" ++ concatStrs chunks) })
        (errAppendFn env) (fun x => rfl) (fun x => rfl) s'] at hs'
      exact lastUpdated_of_mem_ite sessions sid env.tUserUpdate hclock
        (fun x => errAppendFn env
          { userBotFn env inp x with
            messages := setFirstById (userBotFn env inp x).messages env.botMsgId
              ("" ++ concatStrs chunks) })
        (fun x => rfl) (fun x => rfl) s' hs'
  | ok chunks =>
    rw [handleSendMessage_ok_active sessions sid inp stg ci env chunks h1]
    rw [userBot_compose, consumeChunks_collapse]
    by_cases hall : (chunks.all fun c => c == "") = true
    · rw [if_pos hall]
      intro s' hs'
      rw [mem_updateSession sessions sid (userBotFn env inp) s'] at hs'
      exact lastUpdated_of_mem_ite sessions sid env.tUserUpdate hclock
        (userBotFn env inp) (fun x => rfl) (fun x => rfl) s' hs'
    · rw [if_neg hall]
      intro s' hs'
      rw [mem_updateSession2 sessions sid (userBotFn env inp)
        (fun s => { s with
          messages := setFirstById s.messages env.botMsgId ("" ++ concatStrs chunks) })
        (fun x => rfl) s'] at hs'
      exact lastUpdated_of_mem_ite sessions sid env.tUserUpdate hclock
        (fun x =>
          { userBotFn env inp x with
            messages := setFirstById (userBotFn env inp x).messages env.botMsgId
              ("" ++ concatStrs chunks) })
        (fun x => rfl) (fun x => rfl) s' hs'

/-- Witness for the amended C3 at the sample state. -/
theorem c3_lastUpdated_user_append_only_witness :
    (sampleState.input.trim ≠ "" ∧ sampleState.isGenerating = false ∧
      sampleState.currentSessionId = some "s1" ∧
      (∀ s ∈ sampleState.sessions, s.lastUpdated ≤ sampleEnv.tUserUpdate)) ∧
    ((∀ s' ∈ (handleSendMessage sampleState sampleEnv
        (StreamOutcome.streamError ["Hi"])).state.sessions,
      (s'.id = "s1" → s'.lastUpdated = sampleEnv.tUserUpdate) ∧
      (s'.id ≠ "s1" → s' ∈ sampleState.sessions) ∧
      (∃ s ∈ sampleState.sessions, s'.id = s.id ∧ s.lastUpdated ≤ s'.lastUpdated)) ∧
    (∀ (L : List ChatSession) (rid ttl : String),
      (applyRename L rid ttl).map (fun s => (s.id, s.lastUpdated)) =
        L.map fun s => (s.id, s.lastUpdated))) :=
  ⟨⟨sample_trim_ne, by decide, by decide, by decide⟩,
    c3_lastUpdated_user_append_only sampleState sampleEnv
      (StreamOutcome.streamError ["Hi"]) "s1" sample_trim_ne (by decide) (by decide)
      (by decide)⟩

/-! ### Claim C9 -/

/-- JSON trees, the durable-storage representation produced by
JSON.stringify and consumed by JSON.parse in the load and save
useEffects of App.tsx; the string encoding of trees belongs to the
external JSON codec. -/
inductive Json where
  | str (s : String)
  | num (n : Nat)
  | arr (elems : List Json)
  | obj (fields : List (String × Json))

/-- The role string serialized for a message. -/
def Role.toJsonString : Role → String
  | Role.user => "user"
  | Role.model => "model"

/-- JSON form of a Message, fields in declaration order. -/
def Message.toJson (m : Message) : Json :=
  Json.obj [("id", Json.str m.id), ("role", Json.str m.role.toJsonString),
    ("content", Json.str m.content), ("timestamp", Json.num m.timestamp)]

/-- JSON form of a ChatSession. -/
def ChatSession.toJson (s : ChatSession) : Json :=
  Json.obj [("id", Json.str s.id), ("title", Json.str s.title),
    ("messages", Json.arr (s.messages.map Message.toJson)),
    ("createdAt", Json.num s.createdAt), ("lastUpdated", Json.num s.lastUpdated)]

/-- JSON form of the stored session list. -/
def sessionsToJson (sessions : List ChatSession) : Json :=
  Json.arr (sessions.map ChatSession.toJson)

/-- Decoding a Message back from storage. -/
def Message.fromJson? : Json → Option Message
  | Json.obj [("id", Json.str i), ("role", Json.str r), ("content", Json.str c),
      ("timestamp", Json.num t)] =>
    match r with
    | "user" => some { id := i, role := Role.user, content := c, timestamp := t }
    | "model" => some { id := i, role := Role.model, content := c, timestamp := t }
    | _ => none
  | _ => none

/-- Decoding a ChatSession back from storage. -/
def ChatSession.fromJson? : Json → Option ChatSession
  | Json.obj [("id", Json.str i), ("title", Json.str t), ("messages", Json.arr ms),
      ("createdAt", Json.num ca), ("lastUpdated", Json.num lu)] =>
    (ms.mapM Message.fromJson?).map fun msgs =>
      { id := i, title := t, messages := msgs, createdAt := ca, lastUpdated := lu }
  | _ => none

/-- Decoding the stored session list. -/
def sessionsFromJson? : Json → Option (List ChatSession)
  | Json.arr xs => xs.mapM ChatSession.fromJson?
  | _ => none

theorem messageJson_roundtrip (m : Message) :
    Message.fromJson? m.toJson = some m := by
  cases m with
  | mk i r c t => cases r <;> rfl

theorem msgs_roundtrip (ms : List Message) :
    (ms.map Message.toJson).mapM Message.fromJson? = some ms := by
  induction ms with
  | nil => rfl
  | cons m ms ih =>
    rw [List.map_cons, List.mapM_cons, messageJson_roundtrip, ih]
    rfl

theorem chatSessionJson_roundtrip (s : ChatSession) :
    ChatSession.fromJson? s.toJson = some s := by
  cases s with
  | mk i t ms ca lu =>
    rw [show ChatSession.fromJson? (ChatSession.toJson ⟨i, t, ms, ca, lu⟩) =
      ((ms.map Message.toJson).mapM Message.fromJson?).map
        (fun msgs => ⟨i, t, msgs, ca, lu⟩) from rfl]
    rw [msgs_roundtrip]
    rfl

/-- C9: serializing the session list to its JSON storage form and
deserializing it yields the original list: identifiers, titles,
timestamps, message ordering and message content are all preserved. -/
theorem c9_sessions_roundtrip (sessions : List ChatSession) :
    sessionsFromJson? (sessionsToJson sessions) = some sessions := by
  show (sessions.map ChatSession.toJson).mapM ChatSession.fromJson? = some sessions
  induction sessions with
  | nil => rfl
  | cons s rest ih =>
    rw [List.map_cons, List.mapM_cons, chatSessionJson_roundtrip, ih]
    rfl
